import Mathlib

/-!
Verification development for the Qwen-Image Gradio app (`src/app.py`).

The app's logic is glue around an external diffusion pipeline: a LoRA
resolver (`load_lora_opt`), a generation orchestrator (`generate_qwen`)
and a thin wrapper (`generate`).  We embed that logic shallowly:

* external, effectful calls (HTTP download, `pipe.load_lora_weights`,
  `pipe.set_adapters`, `pipe.delete_adapters`, `pipe.disable_lora`,
  the pipeline invocation itself, file saves, zip writes, temporary
  directories) are recorded as an explicit trace of `Event`s;
* whether a fallible external call raises is decided by an oracle
  environment (`LoraEnv` / `GenEnv`); an exception propagating out of
  the Python code is modelled by an `Except.error` result, with the
  trace listing the calls made up to the raise;
* the pipeline's adapter bookkeeping is a `PipeState` evolved by
  `applyEvent`, mirroring the diffusers adapter API: loading weights
  under a name registers that adapter, `delete_adapters` removes it,
  `disable_lora` disables LoRA, `set_adapters` selects active adapters.

Python string operations used by the code (`strip`, `startswith`,
`in`, `replace`, `urlparse(...).path`, `strip("/")`,
`os.path.basename`) are modelled by executable functions on `List Char`
so that every definition evaluates by kernel reduction.
-/

/-- Does the pattern occur at the head of the list?  Models Python
`str.startswith` at the character-list level. -/
def leadsWith : List Char → List Char → Bool
  | [], _ => true
  | _ :: _, [] => false
  | p :: ps, c :: cs => p == c && leadsWith ps cs

/-- Does the pattern occur anywhere in the list?  Models Python's
substring test `pat in s`. -/
def hasSub (pat : List Char) : List Char → Bool
  | [] => leadsWith pat []
  | c :: cs => leadsWith pat (c :: cs) || hasSub pat cs

/-- Python `pat in s` on strings. -/
def strContains (s pat : String) : Bool := hasSub pat.data s.data

/-- Python `s.startswith(pre)`. -/
def pyStartswith (s pre : String) : Bool := leadsWith pre.data s.data

/-- ASCII whitespace, the subset of Python `str.strip`'s default strip
set exercised by this app's inputs. -/
def isPyWhitespace (c : Char) : Bool :=
  c == ' ' || c == '\t' || c == '\n' || c == '\r' || c == '\x0b' || c == '\x0c'

/-- Python `s.strip()` (ASCII-whitespace model). -/
def pyStrip (s : String) : String :=
  String.mk (((s.data.dropWhile isPyWhitespace).reverse.dropWhile isPyWhitespace).reverse)

/-- Python `s.strip("/")`. -/
def stripSlashes (s : String) : String :=
  String.mk (((s.data.dropWhile (fun c => c == '/')).reverse.dropWhile (fun c => c == '/')).reverse)

/-- Python `s.replace(pat, rep)` for a nonempty pattern, written with
explicit fuel so that it is structurally recursive; each step consumes
at least one character, so fuel `s.length` is enough. -/
def replaceFuel (pat rep : List Char) : Nat → List Char → List Char
  | _, [] => []
  | 0, l => l
  | Nat.succ fuel, c :: cs =>
    if !pat.isEmpty && leadsWith pat (c :: cs) then
      rep ++ replaceFuel pat rep fuel (List.drop (pat.length - 1) cs)
    else c :: replaceFuel pat rep fuel cs

/-- Python `s.replace(pat, rep)` (all non-overlapping occurrences,
left to right). -/
def pyReplace (s pat rep : String) : String :=
  String.mk (replaceFuel pat.data rep.data s.data.length s.data)

/-- Characters allowed in a URL scheme, as in CPython `urllib.parse`. -/
def isSchemeChar (c : Char) : Bool :=
  c.isAlpha || c.isDigit || c == '+' || c == '-' || c == '.'

/-- Drop a leading `scheme:` if present, as CPython `urlsplit` does:
the part before the first `:` must be nonempty, start with an ASCII
letter and consist of scheme characters. -/
def dropScheme (cs : List Char) : List Char :=
  let pre := cs.takeWhile (fun c => !(c == ':'))
  if pre.length < cs.length && !pre.isEmpty && (pre.headD '0').isAlpha &&
      pre.all isSchemeChar then
    cs.drop (pre.length + 1)
  else cs

/-- Drop a leading `//netloc`, as CPython `urlsplit` does: only when the
remainder starts with `//`, the netloc extends to the next `/`, `?` or
`#`. -/
def dropNetloc : List Char → List Char
  | '/' :: '/' :: rest => rest.dropWhile (fun c => !(c == '/') && !(c == '?') && !(c == '#'))
  | cs => cs

/-- Split `;params` off the last path segment, as CPython `urlparse`
does after `urlsplit`. -/
def splitParams (cs : List Char) : List Char :=
  if cs.contains '/' then
    let segRev := cs.reverse.takeWhile (fun c => !(c == '/'))
    cs.take (cs.length - segRev.length) ++ segRev.reverse.takeWhile (fun c => !(c == ';'))
  else cs.takeWhile (fun c => !(c == ';'))

/-- The `path` component of Python `urlparse(url)`: drop the scheme and
netloc, cut at the fragment and query, split params off the last
segment. -/
def urlparsePath (url : String) : String :=
  String.mk (splitParams
    (((dropNetloc (dropScheme url.data)).takeWhile (fun c => !(c == '#'))).takeWhile
      (fun c => !(c == '?'))))

/-- Python `os.path.basename` on a POSIX path: the part after the last
`/`. -/
def basename (p : String) : String :=
  String.mk ((p.data.reverse.takeWhile (fun c => !(c == '/'))).reverse)

/-- `MAX_SEED = np.iinfo(np.int32).max` from the source. -/
def MAX_SEED : Int := 2147483647

/-- One observable external call made by the app.  `Flt` is the type of
the Python floats that the app only passes through (guidance scale,
LoRA adapter weights); the app never computes with them. -/
inductive Event (Flt : Type) where
  | manualSeed (seed : Int)
  | loadWeights (arg : String) (adapterName : String)
  | deleteAdapter (name : String)
  | disableLora
  | setAdapters (names : List String) (weights : List Flt)
  | httpGet (url : String)
  | writeFile (path : String)
  | mkdtemp (dir : String)
  | rmtree (dir : String)
  | pipeInvoke (prompt negPrompt : String) (height width : Int) (guidance : Flt)
      (steps numImages : Int) (genSeed : Int)
  | saveImage (path : String)
  | zipCreate (name : String)
  | zipEntry (zipName arcname srcPath : String)
  deriving DecidableEq, Repr

/-- The adapter bookkeeping of the shared pipeline object: the
registered adapter names (what `get_list_adapters` reports), the
currently active adapters, and whether LoRA is enabled. -/
structure PipeState where
  adapters : List String
  activeAdapters : List String
  loraEnabled : Bool
  deriving DecidableEq, Repr

/-- Effect of one event on the pipeline adapter state, following the
diffusers adapter API: `load_lora_weights(..., adapter_name=n)`
registers `n`; `delete_adapters(n)` removes it; `disable_lora()`
disables LoRA; `set_adapters(ns, ...)` activates `ns`.  Events that do
not touch the pipeline's adapter machinery leave the state unchanged. -/
def applyEvent {Flt : Type} (s : PipeState) : Event Flt → PipeState
  | Event.loadWeights _ name =>
    { s with adapters := if s.adapters.contains name then s.adapters else s.adapters ++ [name] }
  | Event.deleteAdapter name =>
    { s with adapters := s.adapters.filter (fun a => !(a == name)) }
  | Event.disableLora => { s with loraEnabled := false }
  | Event.setAdapters names _ => { s with activeAdapters := names, loraEnabled := true }
  | _ => s

/-- Run a trace of events over a pipeline state. -/
def applyEvents {Flt : Type} (s : PipeState) (l : List (Event Flt)) : PipeState :=
  l.foldl applyEvent s

/-- Oracle for the fallible external calls inside `load_lora_opt`:
whether `requests.get(url)` itself raises, whether
`resp.raise_for_status()` passes, whether writing the downloaded chunks
succeeds, whether `pipe.load_lora_weights(arg, ...)` succeeds, and the
directory name that `tempfile.mkdtemp()` returns. -/
structure LoraEnv where
  getOk : String → Bool
  statusOk : String → Bool
  writeOk : String → Bool
  loadOk : String → Bool
  tmpDir : String

/-- Oracle for the remaining external behaviour of `generate_qwen`:
the value drawn by `random.randint(0, MAX_SEED)`, whether the pipeline
invocation succeeds, the unique file names produced by `save_image`
(via `uuid.uuid4()`), the unique zip archive name, and the formatted
wall-clock duration string. -/
structure GenEnv where
  lora : LoraEnv
  randValue : Int
  pipeOk : Bool
  imageName : Nat → String
  zipName : String
  durationStr : String

/-- The value returned by `generate_qwen` on its normal exit path:
`return image_paths, seed, f"{duration:.2f}", zip_path`. -/
structure GenResult where
  imagePaths : List String
  seed : Int
  duration : String
  zipPath : Option String
  deriving DecidableEq, Repr

/-- Embedding of `load_lora_opt(pipe, lora_input)` (src/app.py lines
51-88).  The `pipe` argument is represented by the trace of calls made
on it.  Branches, in source order: empty (after `strip`) returns
without acting; an `owner/name` id not starting with `http` is loaded
directly; an `http` URL on `huggingface.co` without `/blob/` or
`/resolve/` has its `urlparse` path stripped of slashes and loaded as a
repo id; otherwise `/blob/` is rewritten to `/resolve/` and the file is
downloaded into a fresh temporary directory and loaded from there, with
the directory removed in a `finally:`.  A call that raises is recorded
in the trace and the exception propagates (`Except.error`). -/
def load_lora_opt (Flt : Type) (env : LoraEnv) (lora_input : String) :
    Except Unit Unit × List (Event Flt) :=
  let li := pyStrip lora_input
  if li = "" then (Except.ok (), [])
  else if strContains li "/" && !pyStartswith li "http" then
    if env.loadOk li then (Except.ok (), [Event.loadWeights li "default"])
    else (Except.error (), [Event.loadWeights li "default"])
  else if pyStartswith li "http" then
    if strContains li "huggingface.co" && !strContains li "/blob/" &&
        !strContains li "/resolve/" then
      let repo_id := stripSlashes (urlparsePath li)
      if env.loadOk repo_id then (Except.ok (), [Event.loadWeights repo_id "default"])
      else (Except.error (), [Event.loadWeights repo_id "default"])
    else
      let url := if strContains li "/blob/" then pyReplace li "/blob/" "/resolve/" else li
      let local_path := env.tmpDir ++ "/" ++ basename (urlparsePath url)
      let body : Except Unit Unit × List (Event Flt) :=
        if !env.getOk url then (Except.error (), [Event.httpGet url])
        else if !env.statusOk url then (Except.error (), [Event.httpGet url])
        else if !env.writeOk local_path then
          (Except.error (), [Event.httpGet url, Event.writeFile local_path])
        else if !env.loadOk local_path then
          (Except.error (),
            [Event.httpGet url, Event.writeFile local_path,
              Event.loadWeights local_path "default"])
        else
          (Except.ok (),
            [Event.httpGet url, Event.writeFile local_path,
              Event.loadWeights local_path "default"])
      (body.1, Event.mkdtemp env.tmpDir :: body.2 ++ [Event.rmtree env.tmpDir])
  else (Except.ok (), [])

/-- The adapter-clearing idiom of `generate_qwen` (lines 113-116 and
149-152): delete every adapter reported by `get_list_adapters`, then
`disable_lora()`. -/
def clearEvents (Flt : Type) (s : PipeState) : List (Event Flt) :=
  s.adapters.map Event.deleteAdapter ++ [Event.disableLora]

/-- The LoRA phase of `generate_qwen` (lines 118-122): under the guard
`lora_input and lora_input.strip() != ""`, run `load_lora_opt` and, if
it returned normally, `set_adapters(["default"], [lora_scale])`. -/
def loraPhase (Flt : Type) (env : LoraEnv) (lora_input : String) (lora_scale : Flt) :
    Except Unit Unit × List (Event Flt) :=
  if lora_input ≠ "" ∧ pyStrip lora_input ≠ "" then
    let r := load_lora_opt Flt env lora_input
    match r.1 with
    | Except.error e => (Except.error e, r.2)
    | Except.ok _ => (Except.ok (), r.2 ++ [Event.setAdapters ["default"] [lora_scale]])
  else (Except.ok (), [])

/-- Embedding of `generate_qwen` (src/app.py lines 92-154), starting
from pipeline state `s0`.  In source order: resolve the seed
(`random.randint(0, MAX_SEED)` if `randomize_seed`), seed the torch
generator, clear all currently registered adapters and disable LoRA,
run the LoRA phase, invoke the pipeline, save each returned image under
a fresh unique name, optionally write each saved image into a fresh zip
archive as `Img_{i}.png`, clear adapters again, and return the paths,
the seed used, the duration string and the optional zip path.  An
exception at any external call propagates with the trace so far; the
trailing cleanup is not inside any handler. -/
def generate_qwen {Flt : Type} (env : GenEnv) (s0 : PipeState) (prompt : String)
    (negative_prompt : String) (seed : Int) (width height : Int) (guidance_scale : Flt)
    (randomize_seed : Bool) (num_inference_steps num_images : Int) (zip_images : Bool)
    (lora_input : String) (lora_scale : Flt) :
    Except Unit GenResult × List (Event Flt) :=
  let seed1 := if randomize_seed then env.randValue else seed
  let pre1 : List (Event Flt) := Event.manualSeed seed1 :: clearEvents Flt s0
  match loraPhase Flt env.lora lora_input lora_scale with
  | (Except.error e, evs) => (Except.error e, pre1 ++ evs)
  | (Except.ok _, evs) =>
    let pipeEv : Event Flt :=
      Event.pipeInvoke prompt (if negative_prompt ≠ "" then negative_prompt else "")
        height width guidance_scale num_inference_steps num_images seed1
    if env.pipeOk = false then (Except.error (), pre1 ++ evs ++ [pipeEv])
    else
      let image_paths := (List.range num_images.toNat).map env.imageName
      let saveEvs := image_paths.map Event.saveImage
      let zipPart : Option String × List (Event Flt) :=
        if zip_images then
          (some env.zipName,
            Event.zipCreate env.zipName ::
              image_paths.enum.map
                (fun ip => Event.zipEntry env.zipName ("Img_" ++ toString ip.1 ++ ".png") ip.2))
        else (none, [])
      let pre3 := pre1 ++ evs ++ [pipeEv] ++ saveEvs ++ zipPart.2
      let post : List (Event Flt) := clearEvents Flt (applyEvents s0 pre3)
      (Except.ok ⟨image_paths, seed1, env.durationStr, zipPart.1⟩, pre3 ++ post)

/-- Embedding of the wrapper `generate` (src/app.py lines 158-189): it
replaces the negative prompt by `""` unless `use_negative_prompt`, then
calls `generate_qwen` with every argument passed through. -/
def generate {Flt : Type} (env : GenEnv) (s0 : PipeState) (prompt : String)
    (negative_prompt : String) (use_negative_prompt : Bool) (seed : Int)
    (width height : Int) (guidance_scale : Flt) (randomize_seed : Bool)
    (num_inference_steps num_images : Int) (zip_images : Bool) (lora_input : String)
    (lora_scale : Flt) : Except Unit GenResult × List (Event Flt) :=
  let final_negative_prompt := if use_negative_prompt then negative_prompt else ""
  generate_qwen env s0 prompt final_negative_prompt seed width height guidance_scale
    randomize_seed num_inference_steps num_images zip_images lora_input lora_scale

/-- The zip entries written during a run, in order: pairs of archive
entry name (`arcname`) and source file path. -/
def zipEntriesOf {Flt : Type} (l : List (Event Flt)) : List (String × String) :=
  l.filterMap fun e =>
    match e with
    | Event.zipEntry _ a s => some (a, s)
    | _ => none

/-- The URLs passed to `requests.get` during a run, in order. -/
def getUrls {Flt : Type} (l : List (Event Flt)) : List String :=
  l.filterMap fun e =>
    match e with
    | Event.httpGet u => some u
    | _ => none

/-- The `set_adapters` calls made during a run, in order. -/
def setCalls {Flt : Type} (l : List (Event Flt)) : List (List String × List Flt) :=
  l.filterMap fun e =>
    match e with
    | Event.setAdapters ns ws => some (ns, ws)
    | _ => none

/-- Does the trace contain a `load_lora_weights` call registering the
adapter named `default`? -/
def loadsDefault {Flt : Type} (l : List (Event Flt)) : Bool :=
  l.any fun e =>
    match e with
    | Event.loadWeights _ n => n == "default"
    | _ => false

/-- The adapter invariant on the shared pipeline: no adapter, or
exactly the single adapter `default`. -/
def goodAdapters (s : PipeState) : Prop :=
  s.adapters = [] ∨ s.adapters = ["default"]

/-- An all-succeeding LoRA oracle, used by concrete witnesses. -/
def envW : LoraEnv :=
  ⟨fun _ => true, fun _ => true, fun _ => true, fun _ => true, "/tmp/lora"⟩

/-- A LoRA oracle whose HTTP request raises, used by concrete
witnesses exercising failure paths. -/
def envWfail : LoraEnv :=
  ⟨fun _ => false, fun _ => true, fun _ => true, fun _ => true, "/tmp/lora"⟩

/-- A concrete generation environment, used by concrete witnesses. -/
def genEnvW : GenEnv :=
  ⟨envW, 5, true, fun i => "img" ++ toString i, "out.zip", "1.00"⟩

/-- A concrete generation environment whose pipeline invocation raises,
used by concrete witnesses exercising failure paths. -/
def genEnvWfail : GenEnv :=
  ⟨envW, 5, false, fun i => "img" ++ toString i, "out.zip", "1.00"⟩

/-- A concrete pipeline state with the adapter `default` attached, used
by concrete witnesses. -/
def s0W : PipeState := ⟨["default"], ["default"], true⟩


/-- Registering an adapter named `default` (or doing anything that does
not register an adapter) preserves the adapter invariant. -/
theorem applyEvent_good {Flt : Type} (s : PipeState) (e : Event Flt)
    (he : ∀ a n, e = Event.loadWeights a n → n = "default")
    (hs : goodAdapters s) : goodAdapters (applyEvent s e) := by
  cases e
  case loadWeights a n =>
    have hn : n = "default" := he a n rfl
    subst hn
    simp only [applyEvent]
    rcases hs with h | h <;> rw [h] <;> simp [goodAdapters]
  case deleteAdapter n =>
    simp only [applyEvent]
    rcases hs with h | h <;> rw [h]
    · exact Or.inl (by simp [goodAdapters])
    · by_cases hn : n = "default"
      · subst hn
        exact Or.inl (by simp [goodAdapters])
      · refine Or.inr ?_
        have hb : ("default" == n) = false := beq_eq_false_iff_ne.mpr (fun hh => hn hh.symm)
        simp [goodAdapters, List.filter_cons, hb]
  all_goals (simp only [applyEvent]; exact hs)

/-- A trace whose `load_lora_weights` calls all use the adapter name
`default` preserves the adapter invariant. -/
theorem applyEvents_good {Flt : Type} (l : List (Event Flt)) (s : PipeState)
    (hl : ∀ a n, Event.loadWeights a n ∈ l → n = "default")
    (hs : goodAdapters s) : goodAdapters (applyEvents s l) := by
  induction l generalizing s with
  | nil => exact hs
  | cons e rest ih =>
    have h1 : goodAdapters (applyEvent s e) :=
      applyEvent_good s e (fun a n hen => hl a n (by rw [hen] at *; simp)) hs
    exact ih (applyEvent s e) (fun a n hmem => hl a n (by simp [hmem])) h1

/-- Every `load_lora_weights` call made by `load_lora_opt` registers
the adapter under the name `default`. -/
theorem load_lora_opt_loads_default {Flt : Type} (env : LoraEnv) (input : String) :
    ∀ a n, Event.loadWeights a n ∈ (load_lora_opt Flt env input).2 → n = "default" := by
  intro a n h
  simp only [load_lora_opt] at h
  repeat' split at h
  all_goals simp_all

/-- `load_lora_opt` never deletes an adapter. -/
theorem load_lora_opt_no_delete {Flt : Type} (env : LoraEnv) (input : String) :
    ∀ n, Event.deleteAdapter n ∉ (load_lora_opt Flt env input).2 := by
  intro n h
  simp only [load_lora_opt] at h
  repeat' split at h
  all_goals simp_all

theorem applyEvents_append {Flt : Type} (s : PipeState) (a b : List (Event Flt)) :
    applyEvents s (a ++ b) = applyEvents (applyEvents s a) b := by
  simp [applyEvents, List.foldl_append]

theorem applyEvents_deletes_adapters {Flt : Type} (l : List String) (s : PipeState) :
    (applyEvents s (l.map (Event.deleteAdapter : String → Event Flt))).adapters =
      l.foldl (fun acc m => acc.filter (fun a => !(a == m))) s.adapters := by
  induction l generalizing s with
  | nil => rfl
  | cons m rest ih =>
    simp only [List.map_cons, List.foldl_cons]
    exact ih (applyEvent s (Event.deleteAdapter m))

theorem foldl_delete_nil (l : List String) : ∀ acc : List String, (∀ a ∈ acc, a ∈ l) →
    l.foldl (fun acc2 m => acc2.filter (fun a => !(a == m))) acc = [] := by
  induction l with
  | nil =>
    intro acc h
    simp only [List.foldl_nil]
    exact List.eq_nil_iff_forall_not_mem.mpr fun a ha => by simpa using h a ha
  | cons m rest ih =>
    intro acc h
    simp only [List.foldl_cons]
    refine ih _ ?_
    intro a ha
    have h2 := List.mem_filter.mp ha
    have h3 := h a h2.1
    rcases List.mem_cons.mp h3 with h4 | h4
    · exfalso
      have h5 := h2.2
      rw [h4] at h5
      simp at h5
    · exact h4

theorem clearEvents_length {Flt : Type} (s : PipeState) :
    (clearEvents Flt s).length = s.adapters.length + 1 := by
  simp [clearEvents]

/-- The clearing idiom really empties the adapter list and disables
LoRA, from any starting state. -/
theorem clear_adapters_empty {Flt : Type} (s : PipeState) :
    (applyEvents s (clearEvents Flt s)).adapters = [] ∧
      (applyEvents s (clearEvents Flt s)).loraEnabled = false := by
  unfold clearEvents
  rw [applyEvents_append]
  refine ⟨?_, rfl⟩
  show (applyEvents s (s.adapters.map (Event.deleteAdapter : String → Event Flt))).adapters = []
  rw [applyEvents_deletes_adapters]
  exact foldl_delete_nil s.adapters s.adapters (fun a ha => ha)

theorem clear_no_load {Flt : Type} (s : PipeState) (a n : String) :
    Event.loadWeights a n ∉ clearEvents Flt s := by
  intro h
  simp only [clearEvents, List.mem_append, List.mem_map, List.mem_singleton] at h
  rcases h with ⟨m, _, hm⟩ | h <;> simp_all

theorem mem_adapters_persists {Flt : Type} (l : List (Event Flt)) (x : String) :
    ∀ s : PipeState, (∀ n, Event.deleteAdapter n ∉ l) → x ∈ s.adapters →
      x ∈ (applyEvents s l).adapters := by
  induction l with
  | nil => exact fun s _ hx => hx
  | cons e rest ih =>
    intro s hnd hx
    have hrest : ∀ n, Event.deleteAdapter n ∉ rest := fun n hn => hnd n (by simp [hn])
    refine ih (applyEvent s e) hrest ?_
    cases e with
    | deleteAdapter n => exact absurd (by simp) (hnd n)
    | loadWeights a n =>
      simp only [applyEvent]
      by_cases hc : n ∈ s.adapters <;> simp [hc, hx]
    | _ => exact hx

/-- If `load_lora_opt` made a `load_lora_weights` call registering
`default`, then `default` is registered after running its trace. -/
theorem load_attaches {Flt : Type} (env : LoraEnv) (input : String)
    (h : loadsDefault (load_lora_opt Flt env input).2 = true) (s : PipeState) :
    "default" ∈ (applyEvents s (load_lora_opt Flt env input).2).adapters := by
  obtain ⟨e, hmem, hp⟩ := List.any_eq_true.mp (by simpa [loadsDefault] using h)
  cases e
  case manualSeed x => simp at hp
  case deleteAdapter x => simp at hp
  case disableLora => simp at hp
  case setAdapters x y => simp at hp
  case httpGet x => simp at hp
  case writeFile x => simp at hp
  case mkdtemp x => simp at hp
  case rmtree x => simp at hp
  case pipeInvoke x1 x2 x3 x4 x5 x6 x7 x8 => simp at hp
  case saveImage x => simp at hp
  case zipCreate x => simp at hp
  case zipEntry x y z => simp at hp
  case loadWeights a n =>
    have hn : n = "default" := by simpa using hp
    subst hn
    obtain ⟨l1, l2, hdecomp⟩ := List.append_of_mem hmem
    rw [hdecomp, applyEvents_append]
    have hnd2 : ∀ m, Event.deleteAdapter m ∉ l2 := by
      intro m hm
      exact load_lora_opt_no_delete env input m (by rw [hdecomp]; simp [hm])
    have hstep : "default" ∈
        (applyEvent (applyEvents s l1) (Event.loadWeights a "default" : Event Flt)).adapters := by
      simp only [applyEvent]
      by_cases hc : "default" ∈ (applyEvents s l1).adapters <;> simp [hc]
    show "default" ∈
      (applyEvents (applyEvents s l1) ((Event.loadWeights a "default" : Event Flt) :: l2)).adapters
    exact mem_adapters_persists l2 "default"
      (applyEvent (applyEvents s l1) (Event.loadWeights a "default" : Event Flt)) hnd2 hstep

/-- When the LoRA guard holds and `load_lora_opt` returns normally, the
LoRA phase is the load trace followed by
`set_adapters(["default"], [lora_scale])`. -/
theorem loraPhase_ok {Flt : Type} (env : LoraEnv) (li : String) (sc : Flt)
    (h1 : li ≠ "") (h2 : pyStrip li ≠ "")
    (hok : (load_lora_opt Flt env li).1 = Except.ok ()) :
    loraPhase Flt env li sc =
      (Except.ok (), (load_lora_opt Flt env li).2 ++ [Event.setAdapters ["default"] [sc]]) := by
  simp only [loraPhase, if_pos (And.intro h1 h2), hok]

/-- When the LoRA guard fails (empty or whitespace-only input), the
LoRA phase does nothing. -/
theorem loraPhase_skip {Flt : Type} (env : LoraEnv) (li : String) (sc : Flt)
    (h : pyStrip li = "") : loraPhase Flt env li sc = (Except.ok (), []) := by
  have : ¬(li ≠ "" ∧ pyStrip li ≠ "") := fun hc => hc.2 h
  simp only [loraPhase, if_neg this]

/-- Every `load_lora_weights` call made during the LoRA phase registers
the adapter under the name `default`. -/
theorem loraPhase_loads_default {Flt : Type} (env : LoraEnv) (li : String) (sc : Flt) :
    ∀ a n, Event.loadWeights a n ∈ (loraPhase Flt env li sc).2 → n = "default" := by
  intro a n h
  simp only [loraPhase] at h
  split at h
  · split at h
    · exact load_lora_opt_loads_default env li a n h
    · rcases List.mem_append.mp h with h2 | h2
      · exact load_lora_opt_loads_default env li a n h2
      · simp at h2
  · simp at h

/-- Every `load_lora_weights` call made anywhere during `generate_qwen`
registers the adapter under the name `default`. -/
theorem generate_qwen_loads_default {Flt : Type} (env : GenEnv) (s0 : PipeState)
    (prompt negative_prompt : String) (seed width height : Int) (guidance_scale : Flt)
    (randomize_seed : Bool) (num_inference_steps num_images : Int) (zip_images : Bool)
    (lora_input : String) (lora_scale : Flt) :
    ∀ a n, Event.loadWeights a n ∈ (generate_qwen env s0 prompt negative_prompt seed width
      height guidance_scale randomize_seed num_inference_steps num_images zip_images
      lora_input lora_scale).2 → n = "default" := by
  intro a n h
  rcases hl : loraPhase Flt env.lora lora_input lora_scale with ⟨r, evs⟩
  have hevs : ∀ x n2, Event.loadWeights x n2 ∈ evs → n2 = "default" := by
    intro x n2 hm
    exact loraPhase_loads_default env.lora lora_input lora_scale x n2 (by rw [hl]; exact hm)
  simp only [generate_qwen, hl] at h
  cases r with
  | error e =>
    simp only [List.cons_append, List.mem_cons, List.mem_append] at h
    rcases h with h | h | h
    · simp at h
    · exact absurd h (clear_no_load s0 a n)
    · exact hevs a n h
  | ok u =>
    by_cases hp : env.pipeOk = false
    · simp only [if_pos hp] at h
      simp only [List.cons_append, List.append_assoc, List.mem_cons,
        List.mem_append, List.mem_singleton] at h
      rcases h with h | h | h | h | h <;>
        first
          | exact absurd h (clear_no_load s0 a n)
          | exact hevs a n h
          | simp at h
    · simp only [if_neg hp] at h
      by_cases hz : zip_images = true
      · simp only [hz, if_pos] at h
        simp only [List.cons_append, List.append_assoc, List.mem_cons,
          List.mem_append, List.mem_singleton, List.mem_map, List.nil_append] at h
        rcases h with h | h | h | h | h | h | h | h <;>
          first
            | exact absurd h (clear_no_load s0 a n)
            | exact hevs a n h
            | exact absurd h (clear_no_load _ a n)
            | simp at h
      · simp only [hz] at h
        simp only [List.cons_append, List.append_assoc, List.mem_cons,
          List.mem_append, List.mem_singleton, List.mem_map, List.nil_append] at h
        rcases h with h | h | h | h | h | h | h <;>
          first
            | exact absurd h (clear_no_load s0 a n)
            | exact hevs a n h
            | exact absurd h (clear_no_load _ a n)
            | simp at h

/-- The first `2 + |adapters|` events of any `generate_qwen` run are the
generator seeding followed by the full initial adapter clearing. -/
theorem generate_qwen_take_clear {Flt : Type} (env : GenEnv) (s0 : PipeState)
    (prompt negative_prompt : String) (seed width height : Int) (guidance_scale : Flt)
    (randomize_seed : Bool) (num_inference_steps num_images : Int) (zip_images : Bool)
    (lora_input : String) (lora_scale : Flt) :
    ((generate_qwen env s0 prompt negative_prompt seed width height guidance_scale
      randomize_seed num_inference_steps num_images zip_images lora_input
      lora_scale).2).take (s0.adapters.length + 2) =
      Event.manualSeed (if randomize_seed then env.randValue else seed) ::
        clearEvents Flt s0 := by
  have hcl : (clearEvents Flt s0).length = s0.adapters.length + 1 := clearEvents_length s0
  rcases hl : loraPhase Flt env.lora lora_input lora_scale with ⟨r, evs⟩
  simp only [generate_qwen, hl]
  cases r with
  | error e =>
    simp only [List.cons_append]
    rw [List.take_succ_cons, List.take_left' hcl]
  | ok u =>
    by_cases hp : env.pipeOk = false
    · simp only [if_pos hp, List.cons_append, List.append_assoc]
      rw [List.take_succ_cons, List.take_left' hcl]
    · simp only [if_neg hp, List.cons_append, List.append_assoc]
      rw [List.take_succ_cons, List.take_left' hcl]

/-- C1: Under the external request-serialization discipline (modelled
by starting from a pipeline state satisfying the adapter invariant, as
every serialized predecessor run leaves behind), at most one LoRA
adapter — the one named `default` — is registered on the shared
pipeline at every point during `generate_qwen` (every prefix of its
event trace), and the initial clearing phase (the events at positions
`1 .. |adapters|+1` of the trace, right after the generator seeding)
removes every previously attached adapter and disables LoRA before the
request's generation work begins. -/
theorem qwen_adapter_lifecycle {Flt : Type} (env : GenEnv) (s0 : PipeState)
    (prompt negative_prompt : String) (seed width height : Int) (guidance_scale : Flt)
    (randomize_seed : Bool) (num_inference_steps num_images : Int) (zip_images : Bool)
    (lora_input : String) (lora_scale : Flt) (hs0 : goodAdapters s0) :
    (∀ pre, List.IsPrefix pre (generate_qwen env s0 prompt negative_prompt seed width height
        guidance_scale randomize_seed num_inference_steps num_images zip_images lora_input
        lora_scale).2 → goodAdapters (applyEvents s0 pre)) ∧
    (applyEvents s0 ((generate_qwen env s0 prompt negative_prompt seed width height
        guidance_scale randomize_seed num_inference_steps num_images zip_images lora_input
        lora_scale).2.take (s0.adapters.length + 2))).adapters = [] ∧
    (applyEvents s0 ((generate_qwen env s0 prompt negative_prompt seed width height
        guidance_scale randomize_seed num_inference_steps num_images zip_images lora_input
        lora_scale).2.take (s0.adapters.length + 2))).loraEnabled = false := by
  refine ⟨?_, ?_, ?_⟩
  · intro pre hpre
    refine applyEvents_good pre s0 ?_ hs0
    intro a n hmem
    exact generate_qwen_loads_default env s0 prompt negative_prompt seed width height
      guidance_scale randomize_seed num_inference_steps num_images zip_images lora_input
      lora_scale a n (hpre.subset hmem)
  · rw [generate_qwen_take_clear]
    show (applyEvents s0 (clearEvents Flt s0)).adapters = []
    exact (clear_adapters_empty s0).1
  · rw [generate_qwen_take_clear]
    show (applyEvents s0 (clearEvents Flt s0)).loraEnabled = false
    exact (clear_adapters_empty s0).2

/-- Witness for C1 at a concrete input: the previous request left the
adapter `default` attached, this request loads the LoRA `own/nm`. -/
theorem qwen_adapter_lifecycle_witness :
    goodAdapters s0W ∧
    ((∀ pre, List.IsPrefix pre (generate_qwen genEnvW s0W "p" "n" 7 8 8 () false 1 1 false
        "own/nm" ()).2 → goodAdapters (applyEvents s0W pre)) ∧
      (applyEvents s0W ((generate_qwen genEnvW s0W "p" "n" 7 8 8 () false 1 1 false
        "own/nm" ()).2.take (s0W.adapters.length + 2))).adapters = [] ∧
      (applyEvents s0W ((generate_qwen genEnvW s0W "p" "n" 7 8 8 () false 1 1 false
        "own/nm" ()).2.take (s0W.adapters.length + 2))).loraEnabled = false) :=
  ⟨Or.inr rfl,
    qwen_adapter_lifecycle genEnvW s0W "p" "n" 7 8 8 () false 1 1 false "own/nm" ()
      (Or.inr rfl)⟩

/-- C2: the trailing adapter cleanup of `generate_qwen` is not inside
any exception handler.  If the LoRA phase attached the adapter
`default` and the pipeline invocation then raises, `generate_qwen`
propagates the exception and the final pipeline state still has the
adapter `default` registered: no detach happens on that error path. -/
theorem qwen_cleanup_skipped_on_error {Flt : Type} (env : GenEnv) (s0 : PipeState)
    (prompt negative_prompt : String) (seed width height : Int) (guidance_scale : Flt)
    (randomize_seed : Bool) (num_inference_steps num_images : Int) (zip_images : Bool)
    (lora_input : String) (lora_scale : Flt)
    (hg1 : lora_input ≠ "") (hg2 : pyStrip lora_input ≠ "")
    (hok : (load_lora_opt Flt env.lora lora_input).1 = Except.ok ())
    (hload : loadsDefault (load_lora_opt Flt env.lora lora_input).2 = true)
    (hpipe : env.pipeOk = false) :
    (generate_qwen env s0 prompt negative_prompt seed width height guidance_scale
      randomize_seed num_inference_steps num_images zip_images lora_input
      lora_scale).1 = Except.error () ∧
    "default" ∈ (applyEvents s0 (generate_qwen env s0 prompt negative_prompt seed width
      height guidance_scale randomize_seed num_inference_steps num_images zip_images
      lora_input lora_scale).2).adapters := by
  have hlp := loraPhase_ok env.lora lora_input lora_scale hg1 hg2 hok
  simp only [generate_qwen, hlp, if_pos hpipe]
  constructor
  · trivial
  · rw [applyEvents_append, applyEvents_append, applyEvents_append]
    exact load_attaches env.lora lora_input hload
      (applyEvents s0 (Event.manualSeed (if randomize_seed then env.randValue else seed) ::
        clearEvents Flt s0))

/-- Witness for C2 at a concrete input: LoRA `own/nm` loads fine, the
pipeline invocation raises, and the adapter stays attached. -/
theorem qwen_cleanup_skipped_on_error_witness :
    ("own/nm" ≠ "" ∧ pyStrip "own/nm" ≠ "" ∧
      (load_lora_opt Unit genEnvWfail.lora "own/nm").1 = Except.ok () ∧
      loadsDefault (load_lora_opt Unit genEnvWfail.lora "own/nm").2 = true ∧
      genEnvWfail.pipeOk = false) ∧
    ((generate_qwen genEnvWfail s0W "p" "n" 7 8 8 () false 1 1 false "own/nm" ()).1 =
        Except.error () ∧
      "default" ∈ (applyEvents s0W (generate_qwen genEnvWfail s0W "p" "n" 7 8 8 () false 1 1
        false "own/nm" ()).2).adapters) :=
  ⟨⟨by decide, by decide, rfl, rfl, rfl⟩,
    qwen_cleanup_skipped_on_error genEnvWfail s0W "p" "n" 7 8 8 () false 1 1 false "own/nm" ()
      (by decide) (by decide) rfl rfl rfl⟩

/-- C3: the effective seed of `generate_qwen` is the freshly drawn
`random.randint(0, MAX_SEED)` value when `randomize_seed` is set and
the input seed unchanged otherwise; the very first external action of
every run seeds the torch generator with that effective seed, and every
normal return reports that effective seed as the seed actually used. -/
theorem qwen_seed_resolution {Flt : Type} (env : GenEnv) (s0 : PipeState)
    (prompt negative_prompt : String) (seed width height : Int) (guidance_scale : Flt)
    (randomize_seed : Bool) (num_inference_steps num_images : Int) (zip_images : Bool)
    (lora_input : String) (lora_scale : Flt)
    (h0 : 0 ≤ env.randValue) (h1 : env.randValue ≤ MAX_SEED) :
    ((generate_qwen env s0 prompt negative_prompt seed width height guidance_scale
        randomize_seed num_inference_steps num_images zip_images lora_input
        lora_scale).2.head? =
      some (Event.manualSeed (if randomize_seed then env.randValue else seed))) ∧
    (randomize_seed = true →
      0 ≤ (if randomize_seed then env.randValue else seed) ∧
        (if randomize_seed then env.randValue else seed) ≤ MAX_SEED) ∧
    (randomize_seed = false → (if randomize_seed then env.randValue else seed) = seed) ∧
    (∀ r, (generate_qwen env s0 prompt negative_prompt seed width height guidance_scale
        randomize_seed num_inference_steps num_images zip_images lora_input
        lora_scale).1 = Except.ok r →
      r.seed = (if randomize_seed then env.randValue else seed)) := by
  refine ⟨?_, ?_, ?_, ?_⟩
  · rcases hl : loraPhase Flt env.lora lora_input lora_scale with ⟨rr, evs⟩
    simp only [generate_qwen, hl]
    cases rr with
    | error e => simp
    | ok u => by_cases hp : env.pipeOk = false <;> simp [hp]
  · intro h
    simp only [h, if_pos]
    exact ⟨h0, h1⟩
  · intro h
    simp [h]
  · intro r hr
    rcases hl : loraPhase Flt env.lora lora_input lora_scale with ⟨rr, evs⟩
    simp only [generate_qwen, hl] at hr
    cases rr with
    | error e => simp at hr
    | ok u =>
      by_cases hp : env.pipeOk = false
      · simp [hp] at hr
      · simp only [if_neg hp] at hr
        injection hr with h2
        rw [← h2]

/-- Witness for C3 at a concrete input with `randomize_seed` set. -/
theorem qwen_seed_resolution_witness :
    ((0:Int) ≤ genEnvW.randValue ∧ genEnvW.randValue ≤ MAX_SEED) ∧
    (((generate_qwen genEnvW s0W "p" "n" 7 8 8 () true 1 1 false "" ()).2.head? =
        some (Event.manualSeed (if true then genEnvW.randValue else 7))) ∧
      (true = true → 0 ≤ (if true then genEnvW.randValue else (7:Int)) ∧
        (if true then genEnvW.randValue else (7:Int)) ≤ MAX_SEED) ∧
      (true = false → (if true then genEnvW.randValue else (7:Int)) = 7) ∧
      (∀ r, (generate_qwen genEnvW s0W "p" "n" 7 8 8 () true 1 1 false "" ()).1 =
          Except.ok r → r.seed = (if true then genEnvW.randValue else 7))) :=
  ⟨⟨by decide, by decide⟩,
    qwen_seed_resolution genEnvW s0W "p" "n" 7 8 8 () true 1 1 false "" ()
      (by decide) (by decide)⟩

/-- C4: whenever an input reaches the direct-file download branch of
`load_lora_opt` (it strips to an `http` string that does not qualify as
a registry landing page), the scoped temporary directory is created and
its removal is the very last action of the call, whatever the oracle
decides for the HTTP request, the status check, the file write and the
adapter load — i.e. on the success path and on every raising path. -/
theorem lora_tmpdir_removed (Flt : Type) (env : LoraEnv) (input : String)
    (h1 : pyStartswith (pyStrip input) "http" = true)
    (h2 : (strContains (pyStrip input) "huggingface.co" &&
        !strContains (pyStrip input) "/blob/" &&
        !strContains (pyStrip input) "/resolve/") = false) :
    Event.mkdtemp env.tmpDir ∈ (load_lora_opt Flt env input).2 ∧
    (load_lora_opt Flt env input).2.getLast? = some (Event.rmtree env.tmpDir) := by
  have hne : pyStrip input ≠ "" := by
    intro he; rw [he] at h1; exact absurd h1 (by decide)
  have hregN : ¬((strContains (pyStrip input) "/" &&
      !pyStartswith (pyStrip input) "http") = true) := by simp [h1]
  have h2N : ¬((strContains (pyStrip input) "huggingface.co" &&
      !strContains (pyStrip input) "/blob/" &&
      !strContains (pyStrip input) "/resolve/") = true) := by simp [h2]
  simp only [load_lora_opt, if_neg hne, if_neg hregN, if_pos h1, if_neg h2N]
  constructor
  · exact List.mem_append_left _ (List.mem_cons_self _ _)
  · exact List.getLast?_concat _

/-- Witness for C4 at a concrete input whose HTTP request raises: the
temporary directory is still removed last. -/
theorem lora_tmpdir_removed_witness :
    (pyStartswith (pyStrip "https://example.com/f.bin") "http" = true ∧
      (strContains (pyStrip "https://example.com/f.bin") "huggingface.co" &&
        !strContains (pyStrip "https://example.com/f.bin") "/blob/" &&
        !strContains (pyStrip "https://example.com/f.bin") "/resolve/") = false) ∧
    (Event.mkdtemp envWfail.tmpDir ∈
        (load_lora_opt Unit envWfail "https://example.com/f.bin").2 ∧
      (load_lora_opt Unit envWfail "https://example.com/f.bin").2.getLast? =
        some (Event.rmtree envWfail.tmpDir)) :=
  ⟨⟨by decide, by decide⟩,
    lora_tmpdir_removed Unit envWfail "https://example.com/f.bin" (by decide) (by decide)⟩

/-- C5 counterexample: the input `" test/lora "` contains `/` and does
not start with `http`, yet `load_lora_opt` calls `load_lora_weights`
with the whitespace-stripped string `"test/lora"`, not with the input
string unchanged as the claim states. -/
theorem lora_registry_unstripped_cex :
    (load_lora_opt Unit envW " test/lora ").2 =
      [Event.loadWeights "test/lora" "default"] ∧
    Event.loadWeights " test/lora " "default" ∉ (load_lora_opt Unit envW " test/lora ").2 := by
  decide

/-- C5 (amended): for every input whose whitespace-stripped form
contains `/` and does not start with `http`, `load_lora_opt` calls the
pipeline's LoRA weight-loading operation directly with the stripped
string (its only external call), and performs no download. -/
theorem lora_registry_direct (Flt : Type) (env : LoraEnv) (input : String)
    (h1 : strContains (pyStrip input) "/" = true)
    (h2 : pyStartswith (pyStrip input) "http" = false) :
    (load_lora_opt Flt env input).2 = [Event.loadWeights (pyStrip input) "default"] ∧
    ∀ u, Event.httpGet u ∉ (load_lora_opt Flt env input).2 := by
  have hne : pyStrip input ≠ "" := by
    intro he; rw [he] at h1; exact absurd h1 (by decide)
  have hreg : (strContains (pyStrip input) "/" &&
      !pyStartswith (pyStrip input) "http") = true := by
    rw [h1, h2]; rfl
  constructor
  · simp only [load_lora_opt, if_neg hne, if_pos hreg]
    split <;> rfl
  · intro u hu
    simp only [load_lora_opt, if_neg hne, if_pos hreg] at hu
    split at hu <;> simp at hu

/-- Witness for the amended C5 at a concrete input. -/
theorem lora_registry_direct_witness :
    (strContains (pyStrip " test/lora ") "/" = true ∧
      pyStartswith (pyStrip " test/lora ") "http" = false) ∧
    ((load_lora_opt Unit envW " test/lora ").2 =
        [Event.loadWeights (pyStrip " test/lora ") "default"] ∧
      ∀ u, Event.httpGet u ∉ (load_lora_opt Unit envW " test/lora ").2) :=
  ⟨⟨by decide, by decide⟩, lora_registry_direct Unit envW " test/lora " (by decide) (by decide)⟩

/-- C8 counterexample: the URL
`https://huggingface.co/a/b?x=/resolve/y` contains `huggingface.co` and
its `urlparse` path `/a/b` contains neither `/blob/` nor `/resolve/`,
so the claim says it is loaded as the registry reference `a/b` with no
download; but the code tests the whole URL string, finds `/resolve/` in
the query, and downloads the file instead. -/
theorem lora_hf_page_path_cex :
    (strContains "https://huggingface.co/a/b?x=/resolve/y" "huggingface.co" = true ∧
      stripSlashes (urlparsePath "https://huggingface.co/a/b?x=/resolve/y") = "a/b" ∧
      strContains (urlparsePath "https://huggingface.co/a/b?x=/resolve/y") "/blob/" = false ∧
      strContains (urlparsePath "https://huggingface.co/a/b?x=/resolve/y") "/resolve/" = false) ∧
    Event.loadWeights "a/b" "default" ∉
      (load_lora_opt Unit envW "https://huggingface.co/a/b?x=/resolve/y").2 ∧
    Event.httpGet "https://huggingface.co/a/b?x=/resolve/y" ∈
      (load_lora_opt Unit envW "https://huggingface.co/a/b?x=/resolve/y").2 := by
  decide

/-- C8 (amended): for every input that strips to an `http` URL
containing `huggingface.co` and whose full URL string contains neither
`/blob/` nor `/resolve/`, `load_lora_opt` extracts the URL's path,
strips its surrounding slashes, and loads that string as a registry
reference (its only external call), with no download. -/
theorem lora_hf_page_registry (Flt : Type) (env : LoraEnv) (input : String)
    (h1 : pyStartswith (pyStrip input) "http" = true)
    (h2 : (strContains (pyStrip input) "huggingface.co" &&
        !strContains (pyStrip input) "/blob/" &&
        !strContains (pyStrip input) "/resolve/") = true) :
    (load_lora_opt Flt env input).2 =
      [Event.loadWeights (stripSlashes (urlparsePath (pyStrip input))) "default"] ∧
    ∀ u, Event.httpGet u ∉ (load_lora_opt Flt env input).2 := by
  have hne : pyStrip input ≠ "" := by
    intro he; rw [he] at h1; exact absurd h1 (by decide)
  have hregN : ¬((strContains (pyStrip input) "/" &&
      !pyStartswith (pyStrip input) "http") = true) := by simp [h1]
  constructor
  · simp only [load_lora_opt, if_neg hne, if_neg hregN, if_pos h1, if_pos h2]
    split <;> rfl
  · intro u hu
    simp only [load_lora_opt, if_neg hne, if_neg hregN, if_pos h1, if_pos h2] at hu
    split at hu <;> simp at hu

/-- Witness for the amended C8 at a concrete registry landing page. -/
theorem lora_hf_page_registry_witness :
    (pyStartswith (pyStrip "https://huggingface.co/owner/name") "http" = true ∧
      (strContains (pyStrip "https://huggingface.co/owner/name") "huggingface.co" &&
        !strContains (pyStrip "https://huggingface.co/owner/name") "/blob/" &&
        !strContains (pyStrip "https://huggingface.co/owner/name") "/resolve/") = true) ∧
    ((load_lora_opt Unit envW "https://huggingface.co/owner/name").2 =
        [Event.loadWeights
          (stripSlashes (urlparsePath (pyStrip "https://huggingface.co/owner/name")))
          "default"] ∧
      ∀ u, Event.httpGet u ∉ (load_lora_opt Unit envW "https://huggingface.co/owner/name").2) :=
  ⟨⟨by decide, by decide⟩,
    lora_hf_page_registry Unit envW "https://huggingface.co/owner/name"
      (by decide) (by decide)⟩

/-- C9: for every input that strips to an `http` URL containing the
inline preview segment `/blob/`, the download branch is taken and the
one HTTP request of the run is made for the URL with every `/blob/`
rewritten to `/resolve/` — the original URL is never requested. -/
theorem lora_blob_rewrite (Flt : Type) (env : LoraEnv) (input : String)
    (h1 : pyStartswith (pyStrip input) "http" = true)
    (h2 : strContains (pyStrip input) "/blob/" = true) :
    getUrls (load_lora_opt Flt env input).2 =
      [pyReplace (pyStrip input) "/blob/" "/resolve/"] := by
  have hne : pyStrip input ≠ "" := by
    intro he; rw [he] at h1; exact absurd h1 (by decide)
  have hregN : ¬((strContains (pyStrip input) "/" &&
      !pyStartswith (pyStrip input) "http") = true) := by simp [h1]
  have hhfN : ¬((strContains (pyStrip input) "huggingface.co" &&
      !strContains (pyStrip input) "/blob/" &&
      !strContains (pyStrip input) "/resolve/") = true) := by simp [h2]
  simp only [load_lora_opt, if_neg hne, if_neg hregN, if_pos h1, if_neg hhfN, if_pos h2]
  repeat' split
  all_goals simp [getUrls]

/-- Witness for C9 at a concrete blob URL. -/
theorem lora_blob_rewrite_witness :
    (pyStartswith (pyStrip "https://huggingface.co/o/n/blob/main/f.bin") "http" = true ∧
      strContains (pyStrip "https://huggingface.co/o/n/blob/main/f.bin") "/blob/" = true) ∧
    getUrls (load_lora_opt Unit envW "https://huggingface.co/o/n/blob/main/f.bin").2 =
      [pyReplace (pyStrip "https://huggingface.co/o/n/blob/main/f.bin") "/blob/" "/resolve/"] :=
  ⟨⟨by decide, by decide⟩,
    lora_blob_rewrite Unit envW "https://huggingface.co/o/n/blob/main/f.bin"
      (by decide) (by decide)⟩

theorem filterMap_none {A B : Type} (l : List A) :
    List.filterMap (fun _ => (none : Option B)) l = [] := by
  induction l with
  | nil => rfl
  | cons a rest ih => simp [List.filterMap_cons, ih]

theorem filterMap_some_comp {A B : Type} (f : A → B) (l : List A) :
    List.filterMap (fun a => some (f a)) l = l.map f := by
  induction l with
  | nil => rfl
  | cons a rest ih => simp [List.filterMap_cons, ih]

theorem setCalls_clear {Flt : Type} (s : PipeState) :
    setCalls (clearEvents Flt s) = [] := by
  simp [setCalls, clearEvents, List.filterMap_append, List.filterMap_map,
    Function.comp, filterMap_none, List.filterMap_cons]

/-- C10: an input that strips to the empty string makes the whole LoRA
machinery a no-op: `load_lora_opt` returns without acting, no
`set_adapters` call is made anywhere in the run, and `generate_qwen`
returns exactly the same result and trace as with no LoRA reference at
all. -/
theorem qwen_blank_lora_noop {Flt : Type} (env : GenEnv) (s0 : PipeState)
    (prompt negative_prompt : String) (seed width height : Int) (guidance_scale : Flt)
    (randomize_seed : Bool) (num_inference_steps num_images : Int) (zip_images : Bool)
    (lora_input : String) (lora_scale : Flt)
    (h : pyStrip lora_input = "") :
    load_lora_opt Flt env.lora lora_input = (Except.ok (), []) ∧
    setCalls (generate_qwen env s0 prompt negative_prompt seed width height guidance_scale
      randomize_seed num_inference_steps num_images zip_images lora_input
      lora_scale).2 = [] ∧
    generate_qwen env s0 prompt negative_prompt seed width height guidance_scale
      randomize_seed num_inference_steps num_images zip_images lora_input lora_scale =
    generate_qwen env s0 prompt negative_prompt seed width height guidance_scale
      randomize_seed num_inference_steps num_images zip_images "" lora_scale := by
  have hl1 := loraPhase_skip env.lora lora_input lora_scale h
  have hl2 := loraPhase_skip env.lora "" lora_scale (by decide)
  refine ⟨?_, ?_, ?_⟩
  · simp only [load_lora_opt, if_pos h]
  · simp only [generate_qwen, hl1]
    by_cases hp : env.pipeOk = false
    · simp [hp, setCalls, clearEvents, List.filterMap_append, List.filterMap_map,
        Function.comp, filterMap_none, List.filterMap_cons]
    · by_cases hz : zip_images = true <;>
        simp [hp, hz, setCalls, clearEvents, List.filterMap_append, List.filterMap_map,
          Function.comp, filterMap_none, List.filterMap_cons]
  · simp only [generate_qwen, hl1, hl2]

/-- Witness for C10 at a concrete whitespace-only input. -/
theorem qwen_blank_lora_noop_witness :
    pyStrip "  " = "" ∧
    (load_lora_opt Unit genEnvW.lora "  " = (Except.ok (), []) ∧
      setCalls (generate_qwen genEnvW s0W "p" "n" 7 8 8 () false 1 1 false "  " ()).2 = [] ∧
      generate_qwen genEnvW s0W "p" "n" 7 8 8 () false 1 1 false "  " () =
        generate_qwen genEnvW s0W "p" "n" 7 8 8 () false 1 1 false "" ()) :=
  ⟨by decide,
    qwen_blank_lora_noop genEnvW s0W "p" "n" 7 8 8 () false 1 1 false "  " () (by decide)⟩

theorem zipEntriesOf_append {Flt : Type} (a b : List (Event Flt)) :
    zipEntriesOf (a ++ b) = zipEntriesOf a ++ zipEntriesOf b := by
  simp [zipEntriesOf]

theorem zipEntriesOf_clear {Flt : Type} (s : PipeState) :
    zipEntriesOf (clearEvents Flt s) = [] := by
  simp [zipEntriesOf, clearEvents, List.filterMap_append, List.filterMap_map,
    Function.comp, filterMap_none, List.filterMap_cons]

theorem zipEntriesOf_seed_clear {Flt : Type} (x : Int) (s : PipeState) :
    zipEntriesOf ((Event.manualSeed x : Event Flt) :: clearEvents Flt s) = [] := by
  simp [zipEntriesOf, clearEvents, List.filterMap_append, List.filterMap_map,
    Function.comp, filterMap_none, List.filterMap_cons]

theorem zipEntriesOf_load {Flt : Type} (env : LoraEnv) (input : String) :
    zipEntriesOf (load_lora_opt Flt env input).2 = [] := by
  simp only [load_lora_opt]
  repeat' split
  all_goals simp [zipEntriesOf]

theorem zipEntriesOf_loraPhase {Flt : Type} (env : LoraEnv) (li : String) (sc : Flt) :
    zipEntriesOf (loraPhase Flt env li sc).2 = [] := by
  simp only [loraPhase]
  split
  · split
    · exact zipEntriesOf_load env li
    · rw [zipEntriesOf_append, zipEntriesOf_load]
      simp [zipEntriesOf]
  · simp [zipEntriesOf]

theorem zipEntriesOf_saves {Flt : Type} (l : List String) :
    zipEntriesOf (l.map (Event.saveImage : String → Event Flt)) = [] := by
  simp [zipEntriesOf, List.filterMap_map, Function.comp, filterMap_none]

theorem zc_seed {Flt : Type} (x : Int) (l : List (Event Flt)) :
    zipEntriesOf (Event.manualSeed x :: l) = zipEntriesOf l := rfl

theorem zc_pipe {Flt : Type} (p np : String) (h w : Int) (g : Flt) (st ni gs : Int)
    (l : List (Event Flt)) :
    zipEntriesOf (Event.pipeInvoke p np h w g st ni gs :: l) = zipEntriesOf l := rfl

theorem zc_create {Flt : Type} (nm : String) (l : List (Event Flt)) :
    zipEntriesOf (Event.zipCreate nm :: l) = zipEntriesOf l := rfl

theorem zipEntriesOf_entries {Flt : Type} (nm : String) (l : List (Nat × String)) :
    zipEntriesOf (l.map
      (fun ip => (Event.zipEntry nm ("Img_" ++ toString ip.1 ++ ".png") ip.2 : Event Flt))) =
      l.map (fun ip => ("Img_" ++ toString ip.1 ++ ".png", ip.2)) := by
  simp only [zipEntriesOf, List.filterMap_map]
  exact filterMap_some_comp _ l

/-- C6: on every normal return of `generate_qwen`, the zip path is
non-null exactly when the zip flag is set; when set it is the fresh
archive name, and the zip entries written during the run pair the
archive names `Img_0.png`, `Img_1.png`, ... with the returned image
paths, one entry per path, in the same order. -/
theorem qwen_zip_packaging {Flt : Type} (env : GenEnv) (s0 : PipeState)
    (prompt negative_prompt : String) (seed width height : Int) (guidance_scale : Flt)
    (randomize_seed : Bool) (num_inference_steps num_images : Int) (zip_images : Bool)
    (lora_input : String) (lora_scale : Flt) :
    ∀ r, (generate_qwen env s0 prompt negative_prompt seed width height guidance_scale
        randomize_seed num_inference_steps num_images zip_images lora_input
        lora_scale).1 = Except.ok r →
      ((r.zipPath ≠ none ↔ zip_images = true) ∧
        (zip_images = true → r.zipPath = some env.zipName) ∧
        zipEntriesOf (generate_qwen env s0 prompt negative_prompt seed width height
          guidance_scale randomize_seed num_inference_steps num_images zip_images
          lora_input lora_scale).2 =
          (if zip_images = true then
            r.imagePaths.enum.map (fun ip => ("Img_" ++ toString ip.1 ++ ".png", ip.2))
          else [])) := by
  intro r hr
  rcases hl : loraPhase Flt env.lora lora_input lora_scale with ⟨rr, evs⟩
  have hevs : zipEntriesOf evs = [] := by
    have h2 := zipEntriesOf_loraPhase env.lora lora_input lora_scale
    rw [hl] at h2
    exact h2
  simp only [generate_qwen, hl] at hr ⊢
  cases rr with
  | error e => simp at hr
  | ok u =>
    by_cases hp : env.pipeOk = false
    · simp [hp] at hr
    · simp only [if_neg hp] at hr ⊢
      injection hr with h2
      subst h2
      by_cases hz : zip_images = true
      · subst hz
        refine ⟨by simp, fun _ => by simp, ?_⟩
        simp only [eq_self_iff_true, if_true, List.cons_append, List.append_assoc,
          List.nil_append, zipEntriesOf_append, zc_seed, zc_pipe, zc_create,
          zipEntriesOf_clear, zipEntriesOf_saves, zipEntriesOf_entries, hevs,
          List.append_nil]
      · have hz2 : zip_images = false := by
          cases zip_images
          · rfl
          · exact absurd rfl hz
        subst hz2
        refine ⟨by simp, by simp, ?_⟩
        simp only [Bool.false_eq_true, if_false, List.cons_append, List.append_assoc,
          List.nil_append, zipEntriesOf_append, zc_seed, zc_pipe,
          zipEntriesOf_clear, zipEntriesOf_saves, hevs, List.append_nil]

/-- Witness for C6 at a concrete two-image zipped run. -/
theorem qwen_zip_packaging_witness :
    (generate_qwen genEnvW s0W "p" "n" 7 8 8 () false 1 2 true "" ()).1 =
      Except.ok ⟨["img0", "img1"], 7, "1.00", some "out.zip"⟩ ∧
    (((⟨["img0", "img1"], 7, "1.00", some "out.zip"⟩ : GenResult).zipPath ≠ none ↔
        true = true) ∧
      (true = true →
        (⟨["img0", "img1"], 7, "1.00", some "out.zip"⟩ : GenResult).zipPath =
          some genEnvW.zipName) ∧
      zipEntriesOf (generate_qwen genEnvW s0W "p" "n" 7 8 8 () false 1 2 true "" ()).2 =
        (if true = true then
          (⟨["img0", "img1"], 7, "1.00", some "out.zip"⟩ : GenResult).imagePaths.enum.map
            (fun ip => ("Img_" ++ toString ip.1 ++ ".png", ip.2))
        else [])) :=
  ⟨rfl,
    qwen_zip_packaging genEnvW s0W "p" "n" 7 8 8 () false 1 2 true "" ()
      ⟨["img0", "img1"], 7, "1.00", some "out.zip"⟩ rfl⟩

/-- C7: the programmatic entry point `generate` mirrors
`generate_qwen` exactly: for all inputs it returns the result of
`generate_qwen` on the same arguments, with the negative prompt
replaced by the empty string when `use_negative_prompt` is false and
passed through unchanged when it is true. -/
theorem generate_mirrors_generate_qwen {Flt : Type} (env : GenEnv) (s0 : PipeState)
    (prompt negative_prompt : String) (use_negative_prompt : Bool) (seed : Int)
    (width height : Int) (guidance_scale : Flt) (randomize_seed : Bool)
    (num_inference_steps num_images : Int) (zip_images : Bool) (lora_input : String)
    (lora_scale : Flt) :
    generate env s0 prompt negative_prompt use_negative_prompt seed width height
      guidance_scale randomize_seed num_inference_steps num_images zip_images lora_input
      lora_scale =
    generate_qwen env s0 prompt (if use_negative_prompt then negative_prompt else "") seed
      width height guidance_scale randomize_seed num_inference_steps num_images zip_images
      lora_input lora_scale := rfl
